import Mathlib

/-!
Verification of the abstract data-type layer (`src/dialects/abstract/data-types.ts`).

The development shallowly embeds the descriptor taxonomy: each data type's options
record, constructor normalization and methods (`toSql`, `validate`, `stringify`,
`sanitize`, `areValuesEqual`) become pure Lean functions translated from the source.

Modelling conventions for JavaScript values:
* JS numbers are modelled by `JSNum`: `NaN`, the two infinities, and finite
  integer-valued numbers (every finite number the claims exercise is an integer,
  and `String(n)` on such values is exact decimal rendering).
* JS option objects conflate an absent property with one set to `undefined`:
  the source only ever reads the option properties (never checks `hasOwnProperty`
  or enumerates keys), so both read back as `undefined` and an `Option` field with
  `none` models both states.
* Exceptions become `Except JSError`, with `JSError` distinguishing `TypeError`
  from the module's `ValidationError`, since claims distinguish the two.
-/

/-- JS number model: `NaN`, `Infinity`, `-Infinity`, or a finite integer-valued
number (the only finite numbers the claims exercise). -/
inductive JSNum
  | nan
  | posInf
  | negInf
  | int (i : Int)
  deriving DecidableEq, Repr

/-- `Number.isNaN(value)`. -/
def JSNum.isNaN : JSNum → Bool
  | .nan => true
  | _ => false

/-- `Number.isFinite(value)`. -/
def JSNum.isFinite : JSNum → Bool
  | .int _ => true
  | _ => false

/-- `num < 0` (false for `NaN`). -/
def JSNum.ltZero : JSNum → Bool
  | .negInf => true
  | .int i => decide (i < 0)
  | _ => false

/-- `String(value)` for a JS number. Exact for `NaN`, the infinities, and
integers of magnitude below 1e21 (all the model's finite numbers are treated as
such, matching every number the claims use). -/
def JSNum.toJSString : JSNum → String
  | .nan => "NaN"
  | .posInf => "Infinity"
  | .negInf => "-Infinity"
  | .int i => toString i

/-- JS strict equality `===` on numbers: `NaN` is not equal to itself. -/
def jsNumEq : JSNum → JSNum → Bool
  | .posInf, .posInf => true
  | .negInf, .negInf => true
  | .int i, .int j => i == j
  | _, _ => false

/-- The error kinds this layer raises: `TypeError` from constructors and
`sanitize`, and the module's `ValidationError` (src/errors) from `validate`.
Only the message is modelled (the source's `ValidationError` also carries an
empty error list). -/
inductive JSError
  | typeError (msg : String)
  | validationError (msg : String)
  deriving DecidableEq, Repr

/-- Whether a result is a thrown `TypeError`. -/
def isTypeError {α : Type} : Except JSError α → Bool
  | .error (.typeError _) => true
  | _ => false

/-- Whether a result is a thrown `ValidationError`. -/
def isValidationError {α : Type} : Except JSError α → Bool
  | .error (.validationError _) => true
  | _ => false

/-! ## Float family (`FLOAT`, `REAL`, `DOUBLE`) -/

/-- `'0' ≤ c ≤ '9'`. -/
def isDigitChar (c : Char) : Bool := '0' ≤ c && c ≤ '9'

/-- Drop one leading sign character. -/
def dropSign : List Char → List Char
  | '+' :: rest => rest
  | '-' :: rest => rest
  | l => l

/-- Split at the first `'.'`: the characters before it, and (when a dot is
present) the characters after it. -/
def splitAtDot : List Char → List Char × Option (List Char)
  | [] => ([], none)
  | '.' :: rest => ([], some rest)
  | c :: rest =>
    let p := splitAtDot rest
    (c :: p.1, p.2)

/-- All characters are decimal digits (vacuously true for the empty list). -/
def allDigits (l : List Char) : Bool := l.all isDigitChar

/-- Modelled from the spec: `Validator.isFloat` comes from
`utils/validator-extras`, which is not among the provided sources. The spec says
float validation accepts numeric-formatted text (e.g. `"3.14"`), and that `NaN`
and the infinities "must serialize to the literal tokens ... rather than
attempting numeric formatting" — i.e. `stringify` (which validates first) must
not fail on them — so the modelled predicate accepts an optionally signed
decimal numeral (integer part and/or fraction part) and the three special
tokens. -/
def Validator.isFloat (s : String) : Bool :=
  s == "NaN" || s == "Infinity" || s == "-Infinity" ||
    (let l := dropSign s.toList
     match splitAtDot l with
     | (intPart, none) => !intPart.isEmpty && allDigits intPart
     | (intPart, some fracPart) =>
       allDigits intPart && allDigits fracPart
         && !(intPart.isEmpty && fracPart.isEmpty))

/-- `FLOAT#validate` (data-types.ts:562-569), restricted to number inputs:
`Validator.isFloat(String(value))` gates a `ValidationError`. The message uses
`util.format('%j', ...)`, which JSON-renders the value (`NaN` and the
infinities render as `null`). -/
def FLOAT.validate (value : JSNum) : Except JSError Unit :=
  if !Validator.isFloat value.toJSString then
    .error (.validationError
      ((if value.isFinite then value.toJSString else "null")
        ++ " is not a valid float"))
  else
    .ok ()

/-- `FLOAT#_value` (data-types.ts:571-585), restricted to number inputs (for a
number, `typeof value === 'number'` so `num` is the value itself): `NaN` renders
as `"NaN"`, non-finite values as `"Infinity"`/`"-Infinity"` by sign, finite
values via `num.toString()`. -/
def FLOAT._value (value : JSNum) : String :=
  if value.isNaN then "NaN"
  else if !value.isFinite then
    (if value.ltZero then "-" else "") ++ "Infinity"
  else value.toJSString

/-- `FLOAT#stringify` (data-types.ts:587-591): validates, then wraps `_value` in
single quotes (FLOAT sets `escape = false`, so the literal self-quotes). -/
def FLOAT.stringify (value : JSNum) : Except JSError String :=
  match FLOAT.validate value with
  | .error e => .error e
  | .ok _ => .ok ("'" ++ FLOAT._value value ++ "'")

/-- `REAL` (data-types.ts:598-601) only overrides `key`; `stringify` is
inherited from `FLOAT` and does not consult `key`. -/
def REAL.stringify : JSNum → Except JSError String := FLOAT.stringify

/-- `DOUBLE` (data-types.ts:606-609) only overrides `key`; `stringify` is
inherited from `FLOAT` and does not consult `key`. -/
def DOUBLE.stringify : JSNum → Except JSError String := FLOAT.stringify

/-! ## Number family (`NUMBER`, `INTEGER`..`BIGINT`, `FLOAT`/`REAL`/`DOUBLE`, `DECIMAL`)

The shared option shape (`NumberOptions`, data-types.ts:377-398) plus `DECIMAL`'s
`precision`/`scale` (data-types.ts:611-614). An `Option` field with `none` models a
property that is absent or `undefined` (the source only reads these properties). -/

structure NumberOptions where
  length : Option Nat := none
  decimals : Option Nat := none
  precision : Option Nat := none
  scale : Option Nat := none
  unsigned : Option Bool := none
  zerofill : Option Bool := none
  deriving DecidableEq, Repr

/-- JS truthiness of an optional number (`undefined` and `0` are falsy). -/
def optNatTruthy : Option Nat → Bool
  | some n => n != 0
  | none => false

/-- JS truthiness of an optional boolean (`undefined` and `false` are falsy). -/
def optBoolTruthy : Option Bool → Bool
  | some b => b
  | none => false

/-- Argument to `new NUMBER(optionsOrLength?)`: no argument, a length number, or
an options object. -/
inductive NumberCtorArg
  | noArg
  | length (n : Nat)
  | options (o : NumberOptions)
  deriving DecidableEq, Repr

/-- `NUMBER`'s constructor (data-types.ts:415-424): an object argument is
shallow-copied; otherwise `options = { length: optionsOrLength }` (with `length`
left `undefined` when no argument is given). -/
def NUMBER.construct : NumberCtorArg → NumberOptions
  | .noArg => { length := none }
  | .length n => { length := some n }
  | .options o => o

/-- `NUMBER#toSql` (data-types.ts:426-447): `KEY`, then `(length[,decimals])`
when `length` is truthy (`decimals` appears when it is a number), then
`UNSIGNED` and `ZEROFILL` when those options are truthy. `key` is a parameter
because every member of the family inherits this method and only overrides
`key`. -/
def NUMBER.toSql (key : String) (o : NumberOptions) : String :=
  let result := key
  let result :=
    if optNatTruthy o.length then
      result ++ "(" ++ toString (o.length.getD 0)
        ++ (match o.decimals with
            | some d => "," ++ toString d
            | none => "")
        ++ ")"
    else result
  let result := if optBoolTruthy o.unsigned then result ++ " UNSIGNED" else result
  let result := if optBoolTruthy o.zerofill then result ++ " ZEROFILL" else result
  result

/-- The instance getter `NUMBER#UNSIGNED` (data-types.ts:474-476):
`_construct({ ...this.options, unsigned: true })`, i.e. the runtime class's
constructor applied to a spread copy with `unsigned` set. Every numeric
constructor shallow-copies an options-object argument (`NUMBER` at 418-419,
`FLOAT` at 558-559, `DECIMAL` at 630-631), so the result's options are that
copy; the receiver's options are untouched. -/
def NUMBER.UNSIGNED (o : NumberOptions) : NumberOptions :=
  NUMBER.construct (.options { o with unsigned := some true })

/-- The instance getter `NUMBER#ZEROFILL` (data-types.ts:478-480), analogous to
`NUMBER#UNSIGNED`. -/
def NUMBER.ZEROFILL (o : NumberOptions) : NumberOptions :=
  NUMBER.construct (.options { o with zerofill := some true })

/-- Argument to `new FLOAT(length?, decimals?)` (data-types.ts:548-560): either
an options object or a (possibly undefined) length and decimals pair. -/
inductive FloatCtorArg
  | args (length : Option Nat) (decimals : Option Nat)
  | options (o : NumberOptions)
  deriving DecidableEq, Repr

/-- `FLOAT`'s constructor (data-types.ts:558-560): an object argument goes to
`super(length)` unchanged; otherwise `super({ length, decimals })`. `new
FLOAT()` is `.args none none`. -/
def FLOAT.construct : FloatCtorArg → NumberOptions
  | .args l d => NUMBER.construct (.options { length := l, decimals := d })
  | .options o => NUMBER.construct (.options o)

/-- Argument to `new DECIMAL(precision?, scale?)` (data-types.ts:623-638). -/
inductive DecimalCtorArg
  | args (precision : Option Nat) (scale : Option Nat)
  | options (o : NumberOptions)
  deriving DecidableEq, Repr

/-- `DECIMAL`'s constructor (data-types.ts:629-638): an object argument goes to
`super(precisionOrOptions)`; otherwise `super()` and then `options.precision`
and `options.scale` are assigned. `new DECIMAL()` is `.args none none`. -/
def DECIMAL.construct : DecimalCtorArg → NumberOptions
  | .args p s => { NUMBER.construct .noArg with precision := p, scale := s }
  | .options o => NUMBER.construct (.options o)

/-- The ten members of the numeric family. `INTEGER` and its width variants
inherit `NUMBER`'s constructor, `REAL` and `DOUBLE` inherit `FLOAT`'s. -/
inductive NumericType
  | NUMBER | INTEGER | TINYINT | SMALLINT | MEDIUMINT | BIGINT
  | FLOAT | REAL | DOUBLE | DECIMAL
  deriving DecidableEq, Repr

/-- Options of a default-constructed instance (`new T()`) of each numeric type. -/
def NumericType.defaultOptions : NumericType → NumberOptions
  | .FLOAT | .REAL | .DOUBLE => FLOAT.construct (.args none none)
  | .DECIMAL => DECIMAL.construct (.args none none)
  | _ => NUMBER.construct .noArg

/-- Re-invoking a numeric type's constructor on an options object (what
`_construct`, data-types.ts:101-108, does for the derivation getters: the
runtime class's constructor receives the spread-copied options object). -/
def NumericType.constructWith (t : NumericType) (o : NumberOptions) : NumberOptions :=
  match t with
  | .FLOAT | .REAL | .DOUBLE => FLOAT.construct (.options o)
  | .DECIMAL => DECIMAL.construct (.options o)
  | _ => NUMBER.construct (.options o)

/-- The instance getter `T#UNSIGNED` on a descriptor of numeric type `t` with
options `o`: `this._construct({ ...this.options, unsigned: true })`. -/
def NumericType.instanceUNSIGNED (t : NumericType) (o : NumberOptions) : NumberOptions :=
  t.constructWith { o with unsigned := some true }

/-- The instance getter `T#ZEROFILL` on a descriptor of numeric type `t`. -/
def NumericType.instanceZEROFILL (t : NumericType) (o : NumberOptions) : NumberOptions :=
  t.constructWith { o with zerofill := some true }

/-- The static getter `T.UNSIGNED` (data-types.ts:482-484): `new
this({ unsigned: true })` through the type's own constructor. -/
def NumericType.staticUNSIGNED (t : NumericType) : NumberOptions :=
  t.constructWith { unsigned := some true }

/-- The static getter `T.ZEROFILL` (data-types.ts:486-488): `new
this({ zerofill: true })`. -/
def NumericType.staticZEROFILL (t : NumericType) : NumberOptions :=
  t.constructWith { zerofill := some true }

/-- Option-equivalence in the claim's sense: the two descriptors read back the
same `length`, `decimals`, `unsigned` and `zerofill` option values. -/
def optionEquiv (a b : NumberOptions) : Bool :=
  a.length == b.length && a.decimals == b.decimals
    && a.unsigned == b.unsigned && a.zerofill == b.zerofill

/-- C2: deriving `UNSIGNED` then `ZEROFILL` from an `INTEGER` instance yields a
descriptor rendering `"INTEGER UNSIGNED ZEROFILL"`, while the original
descriptor's options are an unchanged copy source and still render
`"INTEGER"` (derivation constructs a fresh instance from a spread copy of the
options, data-types.ts:474-480, and never mutates the receiver). -/
theorem C2_integer_unsigned_zerofill_derivation :
    NUMBER.toSql "INTEGER"
        (NUMBER.ZEROFILL (NUMBER.UNSIGNED (NUMBER.construct .noArg)))
      = "INTEGER UNSIGNED ZEROFILL"
      ∧ NUMBER.toSql "INTEGER" (NUMBER.construct .noArg) = "INTEGER" := by
  constructor <;> rfl

/-- C3: for every numeric type, the `UNSIGNED` (resp. `ZEROFILL`) instance
getter on a default-constructed instance and the static getter on the
unconstructed type produce descriptors with the same `length`, `decimals`,
`unsigned` and `zerofill` option values. -/
theorem C3_modifier_instance_and_static_paths_agree (t : NumericType) :
    optionEquiv (t.instanceUNSIGNED t.defaultOptions) t.staticUNSIGNED = true
      ∧ optionEquiv (t.instanceZEROFILL t.defaultOptions) t.staticZEROFILL = true := by
  cases t <;> exact ⟨rfl, rfl⟩

/-! ## JS value universe

The raw values the claims feed to `sanitize`/`validate`/`areValuesEqual`. -/

/-- Model of a JS value: `null`, `undefined`, booleans, numbers, strings,
`Buffer`s (their byte list), `Date` objects (their millisecond time value,
`NaN` for an invalid Date), and arrays. -/
inductive JSValue
  | null
  | undefined
  | bool (b : Bool)
  | num (n : JSNum)
  | str (s : String)
  | buffer (bytes : List Nat)
  | date (time : JSNum)
  | arr (elems : List JSValue)
  deriving Repr

/-- JS truthiness: `null`, `undefined`, `false`, `0`, `NaN` and `""` are falsy;
objects (Buffer, Date, array) are always truthy. -/
def JSValue.truthy : JSValue → Bool
  | .null => false
  | .undefined => false
  | .bool b => b
  | .num (.int i) => i != 0
  | .num .nan => false
  | .num _ => true
  | .str s => !s.isEmpty
  | .buffer _ => true
  | .date _ => true
  | .arr _ => true

/-- `value instanceof Date`. -/
def JSValue.isDate : JSValue → Bool
  | .date _ => true
  | _ => false

/-- `typeof value === 'string'`. -/
def JSValue.isString : JSValue → Bool
  | .str _ => true
  | _ => false

/-- `typeof value === 'number'`. -/
def JSValue.isNumber : JSValue → Bool
  | .num _ => true
  | _ => false

/-- `Array.isArray(value)`. -/
def JSValue.isArray : JSValue → Bool
  | .arr _ => true
  | _ => false

/-- `date.getTime()`: the time value. Only meaningful on Dates; every call site
in the development guards it with `isDate`. -/
def JSValue.getTime : JSValue → JSNum
  | .date t => t
  | _ => .nan

/-- JS strict equality `===` on the modelled values. Primitives compare by
value, with `NaN` unequal to itself. Object values (Date, Buffer, Array)
compare by *reference* in JS and the model carries no object identity: Dates
compare here by time value — which agrees with the source's only consultation
(`DATE#areValuesEqual`, where `===` sits in disjunction with an explicit
instant comparison, so a distinct-objects-same-instant pair gets the same
overall answer; the one inexpressible point is a single *invalid* Date compared
against itself) — and Buffers/Arrays compare unequal, as distinct references
would. -/
def jsStrictEq : JSValue → JSValue → Bool
  | .null, .null => true
  | .undefined, .undefined => true
  | .bool a, .bool b => a == b
  | .num a, .num b => jsNumEq a b
  | .str a, .str b => a == b
  | .date a, .date b => jsNumEq a b
  | _, _ => false

/-- One escaped JSON string character (quote and backslash escaped; the error
messages the claims touch contain neither). -/
def jsonEscapeChar (c : Char) : String :=
  if c = '"' then "\\\""
  else if c = '\\' then "\\\\"
  else String.singleton c

/-- JSON string-body escaping. -/
def jsonEscapeList : List Char → String
  | [] => ""
  | c :: rest => jsonEscapeChar c ++ jsonEscapeList rest

mutual

/-- `util.format('%j', value)`, i.e. `JSON.stringify(value)` as the source's
error messages use it: `NaN` and the infinities render as `null`, strings are
quoted, Buffers JSON-render their byte table. A Date's JSON form (its quoted
ISO string) is abbreviated to its quoted time value — no modelled call site
renders a Date into a message. -/
def jsonJ : JSValue → String
  | .null => "null"
  | .undefined => "undefined"
  | .bool b => cond b "true" "false"
  | .num n => if n.isFinite then n.toJSString else "null"
  | .str s => "\"" ++ jsonEscapeList s.toList ++ "\""
  | .buffer bytes =>
    "\x7b\"type\":\"Buffer\",\"data\":["
      ++ String.intercalate "," (bytes.map toString) ++ "]\x7d"
  | .date t => "\"" ++ t.toJSString ++ "\""
  | .arr elems => "[" ++ jsonJList elems ++ "]"

/-- Comma-joined JSON renderings of an array's elements. -/
def jsonJList : List JSValue → String
  | [] => ""
  | [v] => jsonJ v
  | v :: rest => jsonJ v ++ "," ++ jsonJList rest

end

mutual

/-- `String(value)` / template-literal conversion. Buffers decode their bytes
(exact for ASCII payloads) and a Date's long-form rendering is abbreviated to
its time value — in every modelled call site (the `TypeError` template of
`DATE#sanitize`, `ENUM`'s constructor message) those cases are unreachable or
feed only message text no claim inspects. -/
def JSValue.jsToString : JSValue → String
  | .null => "null"
  | .undefined => "undefined"
  | .bool b => cond b "true" "false"
  | .num n => n.toJSString
  | .str s => s
  | .buffer bytes => String.mk (bytes.map Char.ofNat)
  | .date t => t.toJSString
  | .arr elems => jsToStringList elems

/-- `Array.prototype.toString`: elements joined with commas. -/
def jsToStringList : List JSValue → String
  | [] => ""
  | [v] => v.jsToString
  | v :: rest => v.jsToString ++ "," ++ jsToStringList rest

end

/-! ## ENUM -/

/-- An argument to `new ENUM(...args)`: a string member, a non-string primitive
member (a number), an array argument, or an options bag `{ values }`. -/
inductive EnumArg
  | str (s : String)
  | num (n : JSNum)
  | array (elems : List EnumArg)
  | optionsBag (values : List EnumArg)
  deriving Repr

/-- `typeof value === 'string'` for an ENUM argument. -/
def EnumArg.isString : EnumArg → Bool
  | .str _ => true
  | _ => false

mutual

/-- `String(value)` of an ENUM argument, for the constructor's error message. -/
def EnumArg.jsString : EnumArg → String
  | .str s => s
  | .num n => n.toJSString
  | .array elems => EnumArg.jsStringList elems
  | .optionsBag _ => "[object Object]"

/-- Array elements joined with commas. -/
def EnumArg.jsStringList : List EnumArg → String
  | [] => ""
  | [v] => v.jsString
  | v :: rest => v.jsString ++ "," ++ EnumArg.jsStringList rest

end

/-- The `TypeError` message for an object first argument followed by more
arguments (data-types.ts:1218). -/
def enumTooManyMsg : String :=
  "DataTypes.ENUM has been constructed incorrectly: Its first parameter is the option bag or the array of values, but more than one parameter has been provided."

/-- The `TypeError` message for an empty values list (data-types.ts:1232). -/
def enumEmptyMsg : String :=
  "DataTypes.ENUM cannot be used without specifying its possible enum values."

/-- The values-resolution step of `ENUM`'s constructor (data-types.ts:1215-1229):
when the first argument is an object (`lodash.isObject`: here an array or an
options bag) it must be the only argument, and supplies the values directly
(array) or through its `values` property (options bag); otherwise the whole
argument list is the values. -/
def ENUM.normalizeValues : List EnumArg → Except JSError (List EnumArg)
  | .array elems :: rest =>
    if rest.isEmpty then .ok elems else .error (.typeError enumTooManyMsg)
  | .optionsBag vs :: rest =>
    if rest.isEmpty then .ok vs else .error (.typeError enumTooManyMsg)
  | args => .ok args

/-- The member loop of `ENUM`'s constructor (data-types.ts:1235-1239): the first
non-string member throws a `TypeError`; when all members are strings the list
becomes `options.values`. -/
def ENUM.memberCheck : List EnumArg → Except JSError (List String)
  | [] => .ok []
  | .str s :: rest => (ENUM.memberCheck rest).map (s :: ·)
  | v :: _ =>
    .error (.typeError
      ("One of the possible values passed to DataTypes.ENUM (" ++ v.jsString
        ++ ") is not a string. Only strings can be used as enum values."))

/-- `ENUM`'s constructor (data-types.ts:1212-1244): resolve the values list,
reject an empty list, reject non-string members, and store the list as
`options.values`. -/
def ENUM.construct (args : List EnumArg) : Except JSError (List String) :=
  match ENUM.normalizeValues args with
  | .error e => .error e
  | .ok values =>
    if values.length == 0 then .error (.typeError enumEmptyMsg)
    else ENUM.memberCheck values

/-- A values list containing a non-string member makes the member loop throw a
`TypeError` (at its first non-string member). -/
theorem enum_memberCheck_nonstring (l : List EnumArg)
    (h : l.all EnumArg.isString = false) :
    isTypeError (ENUM.memberCheck l) = true := by
  induction l with
  | nil => simp at h
  | cons x xs ih =>
    cases x with
    | str s =>
      simp only [List.all_cons, EnumArg.isString, Bool.true_and] at h
      have hxs := ih h
      unfold ENUM.memberCheck
      cases hmc : ENUM.memberCheck xs with
      | ok v => rw [hmc] at hxs; simp [isTypeError] at hxs
      | error e =>
        rw [hmc] at hxs
        cases e with
        | typeError m => simp [Except.map, isTypeError]
        | validationError m => simp [isTypeError] at hxs
    | num n => simp [ENUM.memberCheck, isTypeError]
    | array elems => simp [ENUM.memberCheck, isTypeError]
    | optionsBag vs => simp [ENUM.memberCheck, isTypeError]

/-- C4: constructing ENUM with the array `["a","b"]`, with the options object
`{values:["a","b"]}`, and with the variadic arguments `"a","b"` all normalize
to the same canonical `options.values` list `["a","b"]`. -/
theorem C4_enum_calling_conventions_normalize :
    ENUM.construct [.array [.str "a", .str "b"]] = .ok ["a", "b"]
      ∧ ENUM.construct [.optionsBag [.str "a", .str "b"]] = .ok ["a", "b"]
      ∧ ENUM.construct [.str "a", .str "b"] = .ok ["a", "b"] :=
  ⟨rfl, rfl, rfl⟩

/-- C5: constructing ENUM with an empty values list (no arguments, an empty
array, or an empty options bag), or with any non-string member (through the
array, options-bag, or variadic convention), throws a `TypeError` synchronously
in the constructor. -/
theorem C5_enum_construction_rejects_empty_and_nonstring :
    isTypeError (ENUM.construct []) = true
      ∧ isTypeError (ENUM.construct [.array []]) = true
      ∧ isTypeError (ENUM.construct [.optionsBag []]) = true
      ∧ (∀ members : List EnumArg, members.all EnumArg.isString = false →
          isTypeError (ENUM.construct [.array members]) = true)
      ∧ (∀ members : List EnumArg, members.all EnumArg.isString = false →
          isTypeError (ENUM.construct [.optionsBag members]) = true)
      ∧ isTypeError (ENUM.construct [.str "a", .num (.int 1)]) = true := by
  refine ⟨rfl, rfl, rfl, ?_, ?_, rfl⟩ <;>
    · intro members h
      match members with
      | [] => simp at h
      | m :: ms =>
        have hlem := enum_memberCheck_nonstring (m :: ms) h
        simpa [ENUM.construct, ENUM.normalizeValues] using hlem

/-! ## DATE -/

/-- `(y % 4 == 0 && y % 100 != 0) || y % 400 == 0`. -/
def isLeapYear (y : Nat) : Bool :=
  (y % 4 == 0 && y % 100 != 0) || y % 400 == 0

/-- Day count of month `m` (1-12) in year `y`; 0 for an out-of-range month. -/
def daysInMonth (y : Nat) : Nat → Nat
  | 1 => 31
  | 2 => if isLeapYear y then 29 else 28
  | 3 => 31
  | 4 => 30
  | 5 => 31
  | 6 => 30
  | 7 => 31
  | 8 => 31
  | 9 => 30
  | 10 => 31
  | 11 => 30
  | 12 => 31
  | _ => 0

/-- Days from 1970-01-01 to the civil date `y-m-d` (proleptic Gregorian,
floored-division formulation). -/
def daysFromCivil (y m d : Int) : Int :=
  let yp := y - (if m ≤ 2 then 1 else 0)
  let era := Int.fdiv yp 400
  let yoe := yp - era * 400
  let doy := Int.fdiv (153 * (m + (if m > 2 then -3 else 9)) + 2) 5 + d - 1
  let doe := yoe * 365 + Int.fdiv yoe 4 - Int.fdiv yoe 100 + doy
  era * 146097 + doe - 719468

/-- Model of the ES `new Date(string)` parser on the ISO `YYYY-MM-DD` date-only
form (parsed as UTC midnight); any other string yields an invalid Date (`NaN`
time value). No claim evaluates this parse: `DATE#sanitize` carries its result
symbolically. -/
def jsDateParse (s : String) : JSNum :=
  match s.splitOn "-" with
  | [ys, ms, ds] =>
    if ys.length == 4 && ms.length == 2 && ds.length == 2 then
      match ys.toNat?, ms.toNat?, ds.toNat? with
      | some y, some m, some d =>
        if 1 ≤ m && m ≤ 12 && 1 ≤ d && d ≤ daysInMonth y m then
          .int (86400000 * daysFromCivil (y : Int) (m : Int) (d : Int))
        else .nan
      | _, _, _ => .nan
    else .nan
  | _ => .nan

/-- `new Date(number)`: the number becomes the time value when it is finite and
within the ES range of ±8.64e15 ms; otherwise the Date is invalid. -/
def jsNumberToDateTime : JSNum → JSNum
  | .int i => if i.natAbs ≤ 8640000000000000 then .int i else .nan
  | _ => .nan

/-- `DATE#sanitize` (data-types.ts:772-786): with the `raw` option the value is
returned unchanged; otherwise a `Date` passes through, a string or number
becomes `new Date(value)`, and anything else throws a `TypeError` built from
the template `` `${value} cannot be converted to a date` ``. -/
def DATE.sanitize (value : JSValue) (raw : Bool) : Except JSError JSValue :=
  if raw then .ok value
  else
    match value with
    | .date t => .ok (.date t)
    | .str s => .ok (.date (jsDateParse s))
    | .num n => .ok (.date (jsNumberToDateTime n))
    | v => .error (.typeError (v.jsToString ++ " cannot be converted to a date"))

/-- `DATE#areValuesEqual` (data-types.ts:788-809): equal when both are truthy
and either strictly equal or Dates with the same `getTime()`; equal when both
are falsy and strictly equal ("not changed when set to same empty value");
unequal otherwise. -/
def DATE.areValuesEqual (value originalValue : JSValue) : Bool :=
  if originalValue.truthy && value.truthy
      && (jsStrictEq value originalValue
        || (value.isDate && originalValue.isDate
            && jsNumEq value.getTime originalValue.getTime)) then
    true
  else if !originalValue.truthy && !value.truthy && jsStrictEq originalValue value then
    true
  else
    false

/-- C6: `DATE.areValuesEqual` is true for two Date objects with the identical
time instant (object identity not required: the instant comparison branch
decides it), true for `null` against `null`, and false when exactly one side is
`null` and the other a Date. -/
theorem C6_date_are_values_equal (t : Int) :
    DATE.areValuesEqual (.date (.int t)) (.date (.int t)) = true
      ∧ DATE.areValuesEqual .null .null = true
      ∧ DATE.areValuesEqual .null (.date (.int t)) = false
      ∧ DATE.areValuesEqual (.date (.int t)) .null = false := by
  refine ⟨?_, rfl, rfl, rfl⟩
  simp [DATE.areValuesEqual, JSValue.truthy, jsStrictEq, jsNumEq]

/-- C10: `DATE#sanitize` without the raw option returns a Date unchanged, turns
a string or number into a Date, and throws a `TypeError` (never the module's
`ValidationError`) on every other modelled input; with the raw option it
returns any input unchanged. -/
theorem C10_date_sanitize_dispatch :
    (∀ v : JSValue, DATE.sanitize v true = .ok v)
      ∧ (∀ t : JSNum, DATE.sanitize (.date t) false = .ok (.date t))
      ∧ (∀ s : String, DATE.sanitize (.str s) false = .ok (.date (jsDateParse s)))
      ∧ (∀ n : JSNum, DATE.sanitize (.num n) false = .ok (.date (jsNumberToDateTime n)))
      ∧ (∀ v : JSValue, v.isDate = false → v.isString = false → v.isNumber = false →
          isTypeError (DATE.sanitize v false) = true) := by
  refine ⟨fun v => rfl, fun t => rfl, fun s => rfl, fun n => rfl, ?_⟩
  intro v hd hs hn
  cases v <;>
    simp_all [DATE.sanitize, isTypeError, JSValue.isDate, JSValue.isString,
      JSValue.isNumber]

/-! ## BOOLEAN -/

/-- Loose equality `value == null`: true exactly for `null` and `undefined`. -/
def jsLooseEqNull : JSValue → Bool
  | .null => true
  | .undefined => true
  | _ => false

/-- `BOOLEAN.parse` (data-types.ts:685-713): `null`/`undefined` give `null`; a
one-byte Buffer is replaced by its byte; then the strings `"true"`/`"false"`
and the numbers `0`/`1` map to booleans (`Boolean(value)`); every other value
returns `null` (`none`) — the function never throws. -/
def BOOLEAN.parse (value : JSValue) : Option Bool :=
  if jsLooseEqNull value then none
  else
    let value : JSValue := match value with
      | .buffer [b] => .num (.int (b : Int))
      | v => v
    match value with
    | .str s =>
      if s == "true" then some true
      else if s == "false" then some false
      else none
    | .num n =>
      if jsNumEq n (.int 0) || jsNumEq n (.int 1) then
        some (!jsNumEq n (.int 0))
      else none
    | _ => none

/-- `BOOLEAN#sanitize` (data-types.ts:681-683) delegates to `BOOLEAN.parse`. -/
def BOOLEAN.sanitize : JSValue → Option Bool := BOOLEAN.parse

/-- C7: `BOOLEAN.sanitize` maps a one-byte Buffer holding `1` to `true`, the
text `"false"` to `false`, the number `2` to `null`, and `null` to `null`; any
other string, any number outside `{0,1}`, and (for instance) raw booleans also
normalize to `null` rather than throwing — the function is total. -/
theorem C7_boolean_sanitize_tristate :
    BOOLEAN.sanitize (.buffer [1]) = some true
      ∧ BOOLEAN.sanitize (.str "false") = some false
      ∧ BOOLEAN.sanitize (.num (.int 2)) = none
      ∧ BOOLEAN.sanitize .null = none
      ∧ (∀ s : String, s ≠ "true" → s ≠ "false" → BOOLEAN.sanitize (.str s) = none)
      ∧ (∀ i : Int, i ≠ 0 → i ≠ 1 → BOOLEAN.sanitize (.num (.int i)) = none)
      ∧ (∀ b : Bool, BOOLEAN.sanitize (.bool b) = none) := by
  refine ⟨rfl, rfl, rfl, rfl, ?_, ?_, fun b => rfl⟩
  · intro s h1 h2
    simp [BOOLEAN.sanitize, BOOLEAN.parse, jsLooseEqNull, h1, h2]
  · intro i h0 h1
    simp [BOOLEAN.sanitize, BOOLEAN.parse, jsLooseEqNull, jsNumEq, h0, h1]

/-! ## DECIMAL `toSql` and ARRAY -/

/-- `DECIMAL#toSql` (data-types.ts:640-648): `DECIMAL` bare when neither
`precision` nor `scale` is truthy, else `DECIMAL(precision,scale)` with the
null-ish members filtered out of the parenthetical. -/
def DECIMAL.toSql (o : NumberOptions) : String :=
  if optNatTruthy o.precision || optNatTruthy o.scale then
    "DECIMAL("
      ++ String.intercalate "," (([o.precision, o.scale].filterMap id).map toString)
      ++ ")"
  else "DECIMAL"

/-- `new ARRAY(DECIMAL)` (data-types.ts:1278-1286): a constructible reference is
normalized to a default-constructed instance of the inner type, here
`new DECIMAL()`. -/
def ARRAY.ofDecimalInnerOptions : NumberOptions := DECIMAL.construct (.args none none)

/-- `ARRAY#toSql` (data-types.ts:1288-1290): the inner type's rendered SQL with
`[]` appended; `innerSql` stands for `this.options.type.toSql(options)`. -/
def ARRAY.toSql (innerSql : String) : String := innerSql ++ "[]"

/-- `ARRAY#validate` (data-types.ts:1292-1303): throws the module's
`ValidationError` when the value is not an array (item-level validation is
explicitly left to the consuming layer); returns `true` otherwise. -/
def ARRAY.validate (value : JSValue) : Except JSError Bool :=
  if !value.isArray then
    .error (.validationError (jsonJ value ++ " is not a valid array"))
  else .ok true

/-- C8: an ARRAY wrapping DECIMAL (no precision/scale) renders
`toSql() = "DECIMAL[]"`; `validate([1,2])` passes; `validate("x")` throws a
`ValidationError` because the value is not an array. -/
theorem C8_array_of_decimal :
    ARRAY.toSql (DECIMAL.toSql ARRAY.ofDecimalInnerOptions) = "DECIMAL[]"
      ∧ ARRAY.validate (.arr [.num (.int 1), .num (.int 2)]) = .ok true
      ∧ ARRAY.validate (.str "x")
          = .error (.validationError "\"x\" is not a valid array") :=
  ⟨rfl, rfl, rfl⟩

/-! ## STRING -/

/-- `StringTypeOptions` after constructor normalization (data-types.ts:212-222):
`length` defaults to 255 and `binary` to false. -/
structure StringTypeOptions where
  length : Nat
  binary : Bool
  deriving DecidableEq, Repr

/-- Argument to `new STRING(...)` (data-types.ts:232-234): the
`(length, binary)` form or an options object, each component possibly
undefined. `new STRING()` is `.args none none`. -/
inductive StringCtorArg
  | args (length : Option Nat) (binary : Option Bool)
  | options (length : Option Nat) (binary : Option Bool)
  deriving DecidableEq, Repr

/-- `STRING`'s constructor (data-types.ts:234-250): both forms apply the `??`
defaults of 255 and false, and the result is frozen. -/
def STRING.construct : StringCtorArg → StringTypeOptions
  | .args l b => { length := l.getD 255, binary := b.getD false }
  | .options l b => { length := l.getD 255, binary := b.getD false }

/-- Modelled from the spec: `joinSQLFragments` (`utils/join-sql-fragments`, not
among the provided sources) joins the truthy fragments with single spaces; a
fragment that is `false` (`none` here) is dropped, matching the spec's rendering
of an optional trailing `BINARY` keyword. -/
def joinSQLFragments (fragments : List (Option String)) : String :=
  String.intercalate " " (fragments.filterMap id)

/-- `STRING#toSql` (data-types.ts:252-257), translated as written: the template
renders `VAR_CHAR(<length>)` (sic), with `BINARY` appended when
`options.binary` is set. -/
def STRING.toSql (o : StringTypeOptions) : String :=
  joinSQLFragments
    [some ("VAR_CHAR(" ++ toString o.length ++ ")"),
     if o.binary then some "BINARY" else none]

/-- C9: evaluation of `STRING#toSql` at the claim's inputs. A
default-constructed STRING renders `"VAR_CHAR(255)"` — not the `"VARCHAR(255)"`
the claim and the module's own `toSql` documentation (data-types.ts:166-167)
state — and the `BINARY` suffix is appended when the binary option is set. -/
theorem C9_string_tosql_evaluation :
    STRING.toSql (STRING.construct (.args none none)) = "VAR_CHAR(255)"
      ∧ STRING.toSql (STRING.construct (.options none (some true)))
          = "VAR_CHAR(255) BINARY" :=
  ⟨rfl, rfl⟩

/-- C1: for FLOAT and its subtypes REAL and DOUBLE, `stringify` of `NaN` returns
`"'NaN'"`, of positive `Infinity` returns `"'Infinity'"`, and of negative
`Infinity` returns `"'-Infinity'"`, succeeding rather than failing or applying
numeric formatting. -/
theorem C1_float_stringify_special_values :
    FLOAT.stringify .nan = .ok "'NaN'"
      ∧ FLOAT.stringify .posInf = .ok "'Infinity'"
      ∧ FLOAT.stringify .negInf = .ok "'-Infinity'"
      ∧ REAL.stringify .nan = .ok "'NaN'"
      ∧ REAL.stringify .posInf = .ok "'Infinity'"
      ∧ REAL.stringify .negInf = .ok "'-Infinity'"
      ∧ DOUBLE.stringify .nan = .ok "'NaN'"
      ∧ DOUBLE.stringify .posInf = .ok "'Infinity'"
      ∧ DOUBLE.stringify .negInf = .ok "'-Infinity'" :=
  ⟨rfl, rfl, rfl, rfl, rfl, rfl, rfl, rfl, rfl⟩
